import Mathlib

/-!
Shallow embedding of the IRAH-Premier scoring engine (`src/app.py`):
per-scale normalizers, the weighted aggregation with the high-risk
trigger override, the Fugulin classification label, and the 20-bed
roster handlers (add/upsert, remove, clear) kept in session state.

Python floats are modelled by `ℚ` (all constants in the program are
exact decimals), raw integer scale inputs by `ℤ`, and the roster by a
`List` of records, as in the source where `st.session_state.patients`
is a Python list of dicts.
-/

namespace IrahPremier

/-- Fugulin classification label (source: `fugulin_classification`,
`src/app.py` lines 142-165).  Nested range tests, in source order;
the fall-through case returns the out-of-range message. -/
def fugulin_classification (score : ℤ) : String :=
  if score > 34 then "Intensivo"
  else if 28 ≤ score ∧ score ≤ 34 then "Semi-intensivo"
  else if 23 ≤ score ∧ score ≤ 27 then "Alta dependência"
  else if 18 ≤ score ∧ score ≤ 22 then "Intermediário"
  else if 12 ≤ score ∧ score ≤ 17 then "Mínimo"
  else "Fora da faixa esperada"

/-- Charlson normalization (source: `normalize_charlson`, lines 171-175):
clamp to [0, 13] via `max(0.0, min(c, 13.0))`, then scale to 0-100. -/
def normalize_charlson (charlson_total : ℤ) : ℚ :=
  (max 0 (min (charlson_total : ℚ) 13)) / 13 * 100

/-- Fugulin normalization (source: `normalize_fugulin`, lines 178-201):
piecewise-constant bands; anything below 12 falls through to 0. -/
def normalize_fugulin (fugulin_total : ℤ) : ℚ :=
  if fugulin_total > 34 then 100
  else if 28 ≤ fugulin_total ∧ fugulin_total ≤ 34 then 75
  else if 23 ≤ fugulin_total ∧ fugulin_total ≤ 27 then 50
  else if 18 ≤ fugulin_total ∧ fugulin_total ≤ 22 then 25
  else if 12 ≤ fugulin_total ∧ fugulin_total ≤ 17 then 0
  else 0

/-- MRC normalization (source: `normalize_mrc`, lines 204-208):
clamp to [0, 60], then inverted linear scale. -/
def normalize_mrc (mrc_total : ℤ) : ℚ :=
  (60 - max 0 (min (mrc_total : ℚ) 60)) / 60 * 100

/-- ASG normalization (source: `normalize_asg`, lines 211-214):
dictionary lookup with default 0 for an unrecognized label. -/
def normalize_asg (asg_label : String) : ℚ :=
  if asg_label = "A" then 0
  else if asg_label = "B" then 50
  else if asg_label = "C" then 100
  else 0

/-- FOIS normalization (source: `normalize_fois`, lines 217-220):
dictionary lookup `mapping.get(int(fois), 0.0)` — out-of-range values
take the default 0, they are NOT clamped. -/
def normalize_fois (fois : ℤ) : ℚ :=
  if fois = 1 then 100
  else if fois = 2 then 90
  else if fois = 3 then 80
  else if fois = 4 then 60
  else if fois = 5 then 40
  else if fois = 6 then 20
  else if fois = 7 then 0
  else 0

/-- Polypharmacy normalization (source: `normalize_polypharmacy`,
lines 223-234): piecewise-constant bands on the medication count. -/
def normalize_polypharmacy (n_meds : ℤ) : ℚ :=
  if n_meds ≤ 4 then 0
  else if n_meds ≤ 6 then 25
  else if n_meds ≤ 9 then 50
  else if n_meds ≤ 12 then 75
  else 100

/-- Weight table (source: `WEIGHTS` dict, lines 237-244). -/
def WEIGHTS (scale : String) : ℚ :=
  if scale = "Charlson" then 0.20
  else if scale = "Fugulin" then 0.20
  else if scale = "MRC" then 0.15
  else if scale = "ASG" then 0.15
  else if scale = "FOIS" then 0.15
  else if scale = "Polifarmácia" then 0.15
  else 0

/-- Risk-tier classification with trigger override (source: `classify`,
lines 247-255). -/
def classify (score_0_100 : ℚ) (trigger_high : Bool) : String :=
  if trigger_high then "Alto"
  else if score_0_100 ≥ 67 then "Alto"
  else if score_0_100 ≥ 34 then "Moderado"
  else "Baixo"

/-- Ward-level global complexity from the mean composite (source:
inline expression `complexidade_global`, line 609). -/
def complexidade_global (media : ℚ) : String :=
  if media < 34 then "Baixa" else if media < 67 then "Moderada" else "Alta"

/-- Round-half-to-even to an integer, the convention of Python's
builtin `round`. -/
def roundHalfEven (x : ℚ) : ℤ :=
  if x - ⌊x⌋ < 1/2 then ⌊x⌋
  else if 1/2 < x - ⌊x⌋ then ⌊x⌋ + 1
  else if ⌊x⌋ % 2 = 0 then ⌊x⌋ else ⌊x⌋ + 1

/-- One-decimal rounding, modelling `round(float(irah), 1)` (line 484). -/
def round1 (x : ℚ) : ℚ := (roundHalfEven (10 * x) : ℚ) / 10

/-- Raw per-scale inputs of one evaluation, as read from the widgets
(lines 394, 428, 440-461): Charlson total, Fugulin total, MRC, ASG
label, FOIS level and continuous-medication count. -/
structure ScaleInputs where
  charlson_total : ℤ
  fugulin_total : ℤ
  mrc : ℤ
  asg : String
  fois : ℤ
  poly : ℤ

/-- High-risk trigger (source line 474):
`trigger_high = (fois <= 3) or (poly >= 13) or (mrc <= 35)`. -/
def trigger_high (i : ScaleInputs) : Bool :=
  decide (i.fois ≤ 3) || decide (i.poly ≥ 13) || decide (i.mrc ≤ 35)

/-- The weighted sum of the six normalized sub-scores, in the source's
term order (lines 476-483). -/
def irahFromNorms (c f m a fo p : ℚ) : ℚ :=
  c * WEIGHTS ("Charlson")
    + f * WEIGHTS ("Fugulin")
    + m * WEIGHTS ("MRC")
    + a * WEIGHTS ("ASG")
    + fo * WEIGHTS ("FOIS")
    + p * WEIGHTS ("Polifarmácia")

/-- The composite before rounding, applied to the normalized inputs
(lines 466-483). -/
def irah_raw (i : ScaleInputs) : ℚ :=
  irahFromNorms (normalize_charlson i.charlson_total)
    (normalize_fugulin i.fugulin_total) (normalize_mrc i.mrc)
    (normalize_asg i.asg) (normalize_fois i.fois)
    (normalize_polypharmacy i.poly)

/-- The reported composite `irah = round(float(irah), 1)` (line 484). -/
def irah (i : ScaleInputs) : ℚ := round1 (irah_raw i)

/-- The reported risk tier `risco = classify(irah, trigger_high)`
(line 485). -/
def risco (i : ScaleInputs) : String := classify (irah i) (trigger_high i)

/-- One roster record, the dict appended to `st.session_state.patients`
(lines 539-558). -/
structure Patient where
  Leito : ℤ
  Iniciais : String
  IRAH_Premier : ℚ
  Risco : String
  Gatilho_Alto : String
  Fugulin_total : ℤ
  Fugulin_classificacao : String
  Fugulin_detalhes : List (String × ℤ)
  Charlson_total : ℤ
  Charlson_base : ℤ
  Charlson_idade_pts : ℤ
  Charlson_detalhes : List String
  MRC : ℤ
  ASG : String
  FOIS : ℤ
  Polifarmacia : ℤ
  deriving DecidableEq, Repr

/-- Python `str.strip()`: drop leading and trailing whitespace. -/
def pyStrip (raw : String) : String :=
  ⟨(((raw.data.dropWhile Char.isWhitespace).reverse.dropWhile
    Char.isWhitespace).reverse)⟩

/-- Python `str.upper()`: uppercase every character. -/
def pyUpper (raw : String) : String := ⟨raw.data.map Char.toUpper⟩

/-- Patient identification: `st.text_input(...).strip().upper()`
(line 372). -/
def strip_upper (raw : String) : String := pyUpper (pyStrip raw)

/-- One patient per bed: drop any record at the new record's bed, then
append the new record (lines 537-558). -/
def upsert_patient (patients : List Patient) (rec : Patient) : List Patient :=
  (patients.filter fun p => p.Leito != rec.Leito) ++ [rec]

/-- The add/update handler (lines 532-559): rejected with an error and
no mutation when the stripped initials are empty, otherwise upsert.
The Bool is true when the roster was updated. -/
def add_action (patients : List Patient) (iniciais : String)
    (rec : Patient) : List Patient × Bool :=
  if iniciais = "" then (patients, false)
  else (upsert_patient patients rec, true)

/-- The remove handler (lines 561-568): filter out the bed; the Bool
records whether the length dropped, i.e. whether a record was found
(true reports success, false reports the not-found info message). -/
def remove_action (patients : List Patient) (leito : ℤ) :
    List Patient × Bool :=
  let after := patients.filter fun p => p.Leito != leito
  (after, decide (after.length < patients.length))

/-- The clear handler (lines 570-572): reset to the empty list. -/
def clear_action : List Patient := []

/-- Display/export ordering `sort_values(Leito)` (lines 322, 578):
stable insertion sort by ascending bed number. -/
def insertByLeito (p : Patient) : List Patient → List Patient
  | [] => [p]
  | q :: qs => if p.Leito ≤ q.Leito then p :: q :: qs
    else q :: insertByLeito p qs

/-- List the roster ordered by ascending bed number. -/
def list_patients (patients : List Patient) : List Patient :=
  patients.foldr insertByLeito []

/-- Roster invariant: at most one record per bed number. -/
def rosterInv (patients : List Patient) : Prop :=
  patients.Pairwise fun a b => a.Leito ≠ b.Leito

instance (patients : List Patient) : Decidable (rosterInv patients) := by
  unfold rosterInv; infer_instance

/-- The three roster-mutating UI actions (lines 532-572). -/
inductive RosterOp where
  | add (iniciais : String) (rec : Patient)
  | remove (leito : ℤ)
  | clear

/-- Apply one roster action to the session state. -/
def applyOp (patients : List Patient) : RosterOp → List Patient
  | .add iniciais rec => (add_action patients iniciais rec).1
  | .remove leito => (remove_action patients leito).1
  | .clear => clear_action

/-- Apply a sequence of roster actions in order. -/
def applyOps (patients : List Patient) (ops : List RosterOp) :
    List Patient :=
  ops.foldl applyOp patients

/-- Modelled from the spec words of C5 (for comparison with the code,
which has no such clamping): a FOIS value outside 1-7 is first clamped
into 1-7 and then looked up. -/
def normalize_fois_clamped (fois : ℤ) : ℚ :=
  normalize_fois (min (max fois 1) 7)

/-- The numeric band value named by each Fugulin classification label,
per the canonical banding table shared by `fugulin_classification` and
`normalize_fugulin`. -/
def band_value (label : String) : Option ℚ :=
  if label = "Mínimo" then some 0
  else if label = "Intermediário" then some 25
  else if label = "Alta dependência" then some 50
  else if label = "Semi-intensivo" then some 75
  else if label = "Intensivo" then some 100
  else none

/-- Sample roster record at bed 5. -/
def patientA : Patient :=
  ⟨5, "AB", 10, "Baixo", "", 12, "Mínimo", [], 0, 0, 0, [], 60, "A", 7, 0⟩

/-- A second sample record at bed 5, with different values. -/
def patientB : Patient :=
  ⟨5, "CD", 20, "Baixo", "", 13, "Mínimo", [], 1, 1, 0, [], 60, "A", 7, 0⟩

/-- C6: for every integer Charlson raw total c (negative or above 13
included), `normalize_charlson c = min(max(c,0),13)/13*100`, and the
normalization is monotonic non-decreasing in c. -/
theorem charlson_norm_spec (c d : ℤ) (hcd : c ≤ d) :
    normalize_charlson c = min (max (c : ℚ) 0) 13 / 13 * 100 ∧
    normalize_charlson c ≤ normalize_charlson d := by
  constructor
  · unfold normalize_charlson
    rw [max_min_distrib_left, max_comm 0 (c : ℚ)]
    norm_num
  · unfold normalize_charlson
    have h1 : max 0 (min (c : ℚ) 13) ≤ max 0 (min (d : ℚ) 13) := by
      apply max_le_max le_rfl
      exact min_le_min (by exact_mod_cast hcd) le_rfl
    linarith

/-- Witness for C6 at c = 2, d = 5. -/
theorem charlson_norm_spec_witness :
    normalize_charlson 2 = min (max ((2 : ℤ) : ℚ) 0) 13 / 13 * 100 ∧
    normalize_charlson 2 ≤ normalize_charlson 5 :=
  charlson_norm_spec 2 5 (by decide)

/-- C4: `normalize_fugulin` is the piecewise-constant banding
[12,17] to 0, [18,22] to 25, [23,27] to 50, [28,34] to 75, above 34 to
100, below 12 to 0; it is monotonic non-decreasing over totals at least
12 and its range is contained in the five band values. -/
theorem fugulin_band_spec (e f g : ℤ) (hf : 12 ≤ f) (hfg : f ≤ g) :
    (12 ≤ e ∧ e ≤ 17 → normalize_fugulin e = 0) ∧
    (18 ≤ e ∧ e ≤ 22 → normalize_fugulin e = 25) ∧
    (23 ≤ e ∧ e ≤ 27 → normalize_fugulin e = 50) ∧
    (28 ≤ e ∧ e ≤ 34 → normalize_fugulin e = 75) ∧
    (34 < e → normalize_fugulin e = 100) ∧
    (e < 12 → normalize_fugulin e = 0) ∧
    normalize_fugulin f ≤ normalize_fugulin g ∧
    (normalize_fugulin e = 0 ∨ normalize_fugulin e = 25 ∨
      normalize_fugulin e = 50 ∨ normalize_fugulin e = 75 ∨
      normalize_fugulin e = 100) := by
  refine ⟨?_, ?_, ?_, ?_, ?_, ?_, ?_, ?_⟩ <;> unfold normalize_fugulin <;>
    try intro h
  all_goals split_ifs <;> first | rfl | (exfalso; omega) | norm_num

/-- Witness for C4 at e = 28, f = 20, g = 30. -/
theorem fugulin_band_spec_witness :
    ((12 : ℤ) ≤ 28 ∧ (28 : ℤ) ≤ 17 → normalize_fugulin 28 = 0) ∧
    ((18 : ℤ) ≤ 28 ∧ (28 : ℤ) ≤ 22 → normalize_fugulin 28 = 25) ∧
    ((23 : ℤ) ≤ 28 ∧ (28 : ℤ) ≤ 27 → normalize_fugulin 28 = 50) ∧
    ((28 : ℤ) ≤ 28 ∧ (28 : ℤ) ≤ 34 → normalize_fugulin 28 = 75) ∧
    ((34 : ℤ) < 28 → normalize_fugulin 28 = 100) ∧
    ((28 : ℤ) < 12 → normalize_fugulin 28 = 0) ∧
    normalize_fugulin 20 ≤ normalize_fugulin 30 ∧
    (normalize_fugulin 28 = 0 ∨ normalize_fugulin 28 = 25 ∨
      normalize_fugulin 28 = 50 ∨ normalize_fugulin 28 = 75 ∨
      normalize_fugulin 28 = 100) :=
  fugulin_band_spec 28 20 30 (by decide) (by decide)

/-- C3: with no trigger active, `classify` maps scores at least 67 to
High, scores in [34,67) to Moderate and scores below 34 to Low, and the
inline ward-level global-complexity expression applies exactly the same
threshold function to its input (its feminine labels Alta, Moderada,
Baixa correspond to the patient-level Alto, Moderado, Baixo). -/
theorem tier_thresholds_global_agree (s : ℚ) :
    (classify s false = "Alto" ↔ 67 ≤ s) ∧
    (classify s false = "Moderado" ↔ 34 ≤ s ∧ s < 67) ∧
    (classify s false = "Baixo" ↔ s < 34) ∧
    (complexidade_global s = "Alta" ↔ classify s false = "Alto") ∧
    (complexidade_global s = "Moderada" ↔ classify s false = "Moderado") ∧
    (complexidade_global s = "Baixa" ↔ classify s false = "Baixo") := by
  unfold classify complexidade_global
  split_ifs <;> simp_all <;> linarith

/-- Witness for C3 at s = 50. -/
theorem tier_thresholds_global_agree_witness :
    classify 50 false = "Moderado" :=
  (tier_thresholds_global_agree 50).2.1.mpr (by norm_num)

/-- Counterexample to C5: a FOIS value of 0 (outside 1-7) is NOT first
clamped into 1-7 by `normalize_fois`: the code's dictionary default
yields 0, while clamping first would yield 100. -/
theorem fois_not_clamped_cex :
    normalize_fois 0 = 0 ∧ normalize_fois_clamped 0 = 100 ∧
    ¬normalize_fois 0 = normalize_fois_clamped 0 := by
  refine ⟨by norm_num [normalize_fois], by norm_num [normalize_fois_clamped,
    normalize_fois], by norm_num [normalize_fois_clamped, normalize_fois]⟩

/-- C5 amended: Charlson and MRC raw values are clamped to their
declared ranges before use, so clamping first changes nothing for
them; an out-of-range FOIS value instead takes the lookup default 0
(it is not clamped), as does an unrecognized ASG label; every
normalizer is a total function. -/
theorem clamping_amended (m c f : ℤ) (a : String) :
    normalize_mrc m = normalize_mrc (min (max m 0) 60) ∧
    normalize_charlson c = normalize_charlson (min (max c 0) 13) ∧
    (f < 1 ∨ 7 < f → normalize_fois f = 0) ∧
    (¬a = "A" ∧ ¬a = "B" ∧ ¬a = "C" → normalize_asg a = 0) := by
  refine ⟨?_, ?_, ?_, ?_⟩
  · unfold normalize_mrc
    push_cast
    simp only [min_def, max_def]
    split_ifs <;> first | rfl | (exfalso; linarith) | linarith
  · unfold normalize_charlson
    push_cast
    simp only [min_def, max_def]
    split_ifs <;> first | rfl | (exfalso; linarith) | linarith
  · intro h
    unfold normalize_fois
    split_ifs <;> first | rfl | (exfalso; omega)
  · intro h
    unfold normalize_asg
    split_ifs <;> simp_all

/-- Witness for the amended C5 at m = -5, c = 20, f = 0, a = "X". -/
theorem clamping_amended_witness :
    normalize_mrc (-5) = normalize_mrc (min (max (-5) 0) 60) ∧
    normalize_charlson 20 = normalize_charlson (min (max 20 0) 13) ∧
    ((0 : ℤ) < 1 ∨ (7 : ℤ) < 0 → normalize_fois 0 = 0) ∧
    (¬"X" = "A" ∧ ¬"X" = "B" ∧ ¬"X" = "C" → normalize_asg ("X") = 0) :=
  clamping_amended (-5) 20 0 ("X")

/-- C7: over genuine Fugulin totals (at least 12, the minimum of the
12-domain sum), the classification label and the numeric normalization
agree on the one canonical banding table: the label is one of the five
named tiers and `band_value` sends it exactly to the numeric band; in
particular 28 is Semi-intensive and normalizes to 75. -/
theorem fugulin_label_numeric_agree (f : ℤ) (hf : 12 ≤ f) :
    band_value (fugulin_classification f) = some (normalize_fugulin f) ∧
    (fugulin_classification f = "Mínimo" ∨
      fugulin_classification f = "Intermediário" ∨
      fugulin_classification f = "Alta dependência" ∨
      fugulin_classification f = "Semi-intensivo" ∨
      fugulin_classification f = "Intensivo") ∧
    fugulin_classification 28 = "Semi-intensivo" ∧
    normalize_fugulin 28 = 75 := by
  refine ⟨?_, ?_, by decide, by norm_num [normalize_fugulin]⟩
  · unfold fugulin_classification normalize_fugulin
    split_ifs <;> first | (exfalso; omega) | simp [band_value]
  · unfold fugulin_classification
    split_ifs <;> first | (exfalso; omega) | simp

/-- Witness for C7 at f = 23. -/
theorem fugulin_label_numeric_agree_witness :
    band_value (fugulin_classification 23) = some (normalize_fugulin 23) ∧
    (fugulin_classification 23 = "Mínimo" ∨
      fugulin_classification 23 = "Intermediário" ∨
      fugulin_classification 23 = "Alta dependência" ∨
      fugulin_classification 23 = "Semi-intensivo" ∨
      fugulin_classification 23 = "Intensivo") ∧
    fugulin_classification 28 = "Semi-intensivo" ∧
    normalize_fugulin 28 = 75 :=
  fugulin_label_numeric_agree 23 (by decide)

/-- Round-half-to-even of a value in [0, n] stays in [0, n]. -/
lemma roundHalfEven_bounds (x : ℚ) (n : ℤ) (h0 : 0 ≤ x) (h1 : x ≤ n) :
    0 ≤ roundHalfEven x ∧ roundHalfEven x ≤ n := by
  have hfl : (0 : ℤ) ≤ ⌊x⌋ := Int.floor_nonneg.2 h0
  have hfu : ⌊x⌋ ≤ n := by
    have := Int.floor_le_floor h1
    simpa using this
  have hx : (⌊x⌋ : ℚ) ≤ x := Int.floor_le x
  unfold roundHalfEven
  split_ifs with h2 h3 h4
  · exact ⟨hfl, hfu⟩
  · refine ⟨by omega, ?_⟩
    have h5 : (2 * ⌊x⌋ : ℚ) ≤ 2 * (n : ℚ) - 1 := by linarith
    have h6 : 2 * ⌊x⌋ ≤ 2 * n - 1 := by exact_mod_cast h5
    omega
  · exact ⟨hfl, hfu⟩
  · refine ⟨by omega, ?_⟩
    have h5 : (2 * ⌊x⌋ : ℚ) ≤ 2 * (n : ℚ) - 1 := by linarith
    have h6 : 2 * ⌊x⌋ ≤ 2 * n - 1 := by exact_mod_cast h5
    omega

/-- One-decimal rounding of a value in [0, 100] stays in [0, 100]. -/
lemma round1_bounds (x : ℚ) (h0 : 0 ≤ x) (h1 : x ≤ 100) :
    0 ≤ round1 x ∧ round1 x ≤ 100 := by
  obtain ⟨a, b⟩ := roundHalfEven_bounds (10 * x) 1000 (by linarith)
    (by push_cast; linarith)
  unfold round1
  constructor
  · have ha : (0 : ℚ) ≤ (roundHalfEven (10 * x) : ℚ) := by exact_mod_cast a
    linarith
  · have hb : (roundHalfEven (10 * x) : ℚ) ≤ 1000 := by exact_mod_cast b
    linarith

/-- C1: the high-risk trigger flag is true exactly when FOIS is at
most 3 or the polypharmacy count is at least 13 or MRC is at most 35;
whenever it is true the reported tier is Alto (High) no matter what the
composite is, even below 34; and the reported composite number is the
plain rounded weighted sum, untouched by the trigger. -/
theorem trigger_override_spec (i : ScaleInputs) (s : ℚ) :
    (trigger_high i = true ↔ i.fois ≤ 3 ∨ 13 ≤ i.poly ∨ i.mrc ≤ 35) ∧
    (trigger_high i = true → risco i = "Alto") ∧
    classify s true = "Alto" ∧
    irah i = round1 (irahFromNorms (normalize_charlson i.charlson_total)
      (normalize_fugulin i.fugulin_total) (normalize_mrc i.mrc)
      (normalize_asg i.asg) (normalize_fois i.fois)
      (normalize_polypharmacy i.poly)) := by
  refine ⟨?_, ?_, rfl, rfl⟩
  · unfold trigger_high
    simp [or_assoc]
  · intro h
    unfold risco classify
    rw [h]
    simp

/-- Witness for C1: FOIS = 2 activates the trigger and forces the Alto
tier. -/
theorem trigger_override_spec_witness :
    risco ⟨0, 12, 60, "A", 2, 0⟩ = "Alto" :=
  (trigger_override_spec ⟨0, 12, 60, "A", 2, 0⟩ 0).2.1 (by decide)

/-- C2: the six weights sum to 1; the composite weighted sum is
invariant under any permutation of the six weighted terms; and for
sub-scores each in [0, 100] the composite, both before and after the
one-decimal rounding, lies in [0, 100]. -/
theorem composite_weighted_sum_spec (c f m a fo p : ℚ) (l : List ℚ)
    (hc0 : 0 ≤ c) (hc1 : c ≤ 100) (hf0 : 0 ≤ f) (hf1 : f ≤ 100)
    (hm0 : 0 ≤ m) (hm1 : m ≤ 100) (ha0 : 0 ≤ a) (ha1 : a ≤ 100)
    (hfo0 : 0 ≤ fo) (hfo1 : fo ≤ 100) (hp0 : 0 ≤ p) (hp1 : p ≤ 100)
    (hl : l.Perm [c * WEIGHTS ("Charlson"), f * WEIGHTS ("Fugulin"),
      m * WEIGHTS ("MRC"), a * WEIGHTS ("ASG"), fo * WEIGHTS ("FOIS"),
      p * WEIGHTS ("Polifarmácia")]) :
    WEIGHTS ("Charlson") + WEIGHTS ("Fugulin") + WEIGHTS ("MRC") +
      WEIGHTS ("ASG") + WEIGHTS ("FOIS") + WEIGHTS ("Polifarmácia") = 1 ∧
    l.sum = irahFromNorms c f m a fo p ∧
    0 ≤ irahFromNorms c f m a fo p ∧ irahFromNorms c f m a fo p ≤ 100 ∧
    0 ≤ round1 (irahFromNorms c f m a fo p) ∧
    round1 (irahFromNorms c f m a fo p) ≤ 100 := by
  have hW : WEIGHTS ("Charlson") = 0.20 ∧ WEIGHTS ("Fugulin") = 0.20 ∧
      WEIGHTS ("MRC") = 0.15 ∧ WEIGHTS ("ASG") = 0.15 ∧
      WEIGHTS ("FOIS") = 0.15 ∧ WEIGHTS ("Polifarmácia") = 0.15 := by
    refine ⟨?_, ?_, ?_, ?_, ?_, ?_⟩ <;> simp [WEIGHTS]
  obtain ⟨w1, w2, w3, w4, w5, w6⟩ := hW
  have hlow : 0 ≤ irahFromNorms c f m a fo p := by
    unfold irahFromNorms
    rw [w1, w2, w3, w4, w5, w6]
    norm_num
    linarith
  have hhigh : irahFromNorms c f m a fo p ≤ 100 := by
    unfold irahFromNorms
    rw [w1, w2, w3, w4, w5, w6]
    norm_num
    linarith
  obtain ⟨r0, r1⟩ := round1_bounds _ hlow hhigh
  refine ⟨by rw [w1, w2, w3, w4, w5, w6]; norm_num, ?_, hlow, hhigh, r0, r1⟩
  rw [hl.sum_eq]
  unfold irahFromNorms
  simp [List.sum_cons]
  ring

/-- Witness for C2 at all six sub-scores equal to 50, with the term
list reversed. -/
theorem composite_weighted_sum_spec_witness :
    WEIGHTS ("Charlson") + WEIGHTS ("Fugulin") + WEIGHTS ("MRC") +
      WEIGHTS ("ASG") + WEIGHTS ("FOIS") + WEIGHTS ("Polifarmácia") = 1 ∧
    ([(50 : ℚ) * WEIGHTS ("Charlson"), 50 * WEIGHTS ("Fugulin"),
      50 * WEIGHTS ("MRC"), 50 * WEIGHTS ("ASG"), 50 * WEIGHTS ("FOIS"),
      50 * WEIGHTS ("Polifarmácia")].reverse).sum =
      irahFromNorms 50 50 50 50 50 50 ∧
    0 ≤ irahFromNorms 50 50 50 50 50 50 ∧
    irahFromNorms 50 50 50 50 50 50 ≤ 100 ∧
    0 ≤ round1 (irahFromNorms 50 50 50 50 50 50) ∧
    round1 (irahFromNorms 50 50 50 50 50 50) ≤ 100 :=
  composite_weighted_sum_spec 50 50 50 50 50 50 _ (by norm_num) (by norm_num)
    (by norm_num) (by norm_num) (by norm_num) (by norm_num) (by norm_num)
    (by norm_num) (by norm_num) (by norm_num) (by norm_num) (by norm_num)
    (List.reverse_perm _)

/-- Filtering keeps the roster invariant: a sublist has pairwise
distinct beds whenever the whole list does. -/
lemma rosterInv_filter (patients : List Patient) (pred : Patient → Bool)
    (h : rosterInv patients) : rosterInv (patients.filter pred) :=
  h.sublist (List.filter_sublist patients)

/-- Upsert keeps the roster invariant. -/
lemma rosterInv_upsert (patients : List Patient) (rec : Patient)
    (h : rosterInv patients) : rosterInv (upsert_patient patients rec) := by
  unfold upsert_patient rosterInv
  rw [List.pairwise_append]
  refine ⟨rosterInv_filter patients _ h, List.pairwise_singleton _ _, ?_⟩
  intro x hx y hy
  simp only [List.mem_singleton] at hy
  subst hy
  have := (List.mem_filter.1 hx).2
  simpa using this

/-- Every single roster action keeps the invariant. -/
lemma rosterInv_applyOp (patients : List Patient) (op : RosterOp)
    (h : rosterInv patients) : rosterInv (applyOp patients op) := by
  cases op with
  | add iniciais rec =>
    simp only [applyOp, add_action]
    split_ifs
    · exact h
    · exact rosterInv_upsert patients rec h
  | remove leito =>
    simp only [applyOp, remove_action]
    exact rosterInv_filter patients _ h
  | clear =>
    exact List.Pairwise.nil

/-- Every sequence of roster actions keeps the invariant. -/
lemma rosterInv_applyOps (patients : List Patient) (ops : List RosterOp)
    (h : rosterInv patients) : rosterInv (applyOps patients ops) := by
  induction ops generalizing patients with
  | nil => exact h
  | cons op rest ih => exact ih _ (rosterInv_applyOp patients op h)

/-- After an upsert, the records at the upserted bed are exactly the
new record. -/
lemma filter_upsert_eq (patients : List Patient) (rec : Patient) :
    (upsert_patient patients rec).filter
      (fun q => q.Leito == rec.Leito) = [rec] := by
  unfold upsert_patient
  rw [List.filter_append]
  have h1 : (patients.filter fun p => p.Leito != rec.Leito).filter
      (fun q => q.Leito == rec.Leito) = [] := by
    rw [List.filter_eq_nil_iff]
    intro a ha
    have := (List.mem_filter.1 ha).2
    simp_all
  have h2 : ([rec].filter fun q => q.Leito == rec.Leito) = [rec] := by simp
  rw [h1, h2]
  rfl

/-- C8: every sequence of add/upsert, remove and clear actions keeps
the at-most-one-record-per-bed invariant; upserting the same bed twice
leaves exactly the latest record at that bed; and clearing yields the
empty roster, whose listing is the empty sequence. -/
theorem roster_invariant_spec (s : List Patient) (ops : List RosterOp)
    (p1 p2 : Patient) (hs : rosterInv s) (hb : p1.Leito = p2.Leito) :
    rosterInv (applyOps s ops) ∧
    (upsert_patient (upsert_patient s p1) p2).filter
      (fun q => q.Leito == p2.Leito) = [p2] ∧
    applyOps s [RosterOp.clear] = [] ∧
    list_patients (applyOps s [RosterOp.clear]) = [] := by
  refine ⟨rosterInv_applyOps s ops hs, ?_, rfl, rfl⟩
  exact filter_upsert_eq (upsert_patient s p1) p2

/-- Witness for C8: two upserts at bed 5 over the empty roster, then a
removal. -/
theorem roster_invariant_spec_witness :
    rosterInv (applyOps [] [RosterOp.add ("AB") patientA,
      RosterOp.add ("CD") patientB, RosterOp.remove 5]) ∧
    (upsert_patient (upsert_patient [] patientA) patientB).filter
      (fun q => q.Leito == patientB.Leito) = [patientB] ∧
    applyOps [] [RosterOp.clear] = [] ∧
    list_patients (applyOps [] [RosterOp.clear]) = [] :=
  roster_invariant_spec [] [RosterOp.add ("AB") patientA,
    RosterOp.add ("CD") patientB, RosterOp.remove 5] patientA patientB
    List.Pairwise.nil rfl

/-- C9: removing a bed that holds no record reports the not-found
informational result (the Bool is false, not an error) and returns the
roster completely unchanged. -/
theorem remove_absent_noop (s : List Patient) (leito : ℤ)
    (h : ∀ p ∈ s, p.Leito ≠ leito) :
    remove_action s leito = (s, false) := by
  unfold remove_action
  have hf : (s.filter fun p => p.Leito != leito) = s := by
    rw [List.filter_eq_self]
    intro a ha
    simpa using h a ha
  simp [hf]

/-- Witness for C9: removing bed 3 from a roster holding only bed 5. -/
theorem remove_absent_noop_witness :
    remove_action [patientA] 3 = ([patientA], false) :=
  remove_absent_noop [patientA] 3 (by decide)

/-- C10: when the patient-initials input strips to the empty string,
the add action is rejected (the Bool reports the user-visible error)
and the roster is returned unchanged, whatever it contained. -/
theorem empty_iniciais_rejected (raw : String) (patients : List Patient)
    (rec : Patient) (h : pyStrip raw = "") :
    add_action patients (strip_upper raw) rec = (patients, false) := by
  unfold strip_upper add_action
  rw [h]
  have hu : (pyUpper "" = "") := by decide
  rw [hu]
  simp

/-- Witness for C10: whitespace-only initials leave a one-patient
roster untouched. -/
theorem empty_iniciais_rejected_witness :
    add_action [patientA] (strip_upper "   ") patientB =
      ([patientA], false) :=
  empty_iniciais_rejected "   " [patientA] patientB (by decide)

end IrahPremier
